import Mathlib

/-!
Verification of the VRP pointer-network decoder (PtrNet.py) and the dataset
generator (Data_Generator.py).

Conventions of the shallow embedding:
  - a float tensor of shape [batch_size x sourceL] is a function
    Fin B -> Fin N -> Real; the node-feature tensor before_embedded_inputs of
    shape [sourceL x batch_size x 6] is Fin N -> Fin B -> Fin 6 -> Real;
  - node index 0 is the depot; B is the batch size, N the node count (the
    seq_len of the decoder);
  - the learned neural modules (Struct2Vec, the LSTMs, the attention heads)
    enter as function parameters: every claim treated here is about the
    decoding state machine around them;
  - the 0/1 mask tensor built by apply_mask_to_logits is
    Fin B -> Fin N -> Bool (entry 1 <-> true); since the code builds it as a
    LongTensor, the assignment logits[maskk] = -inf is integer advanced
    indexing along dimension 0, modelled by logits_set_neg_inf_long, with
    -inf entries of the resulting logits carried as none : Option Real;
  - Python-level failures (tensor truthiness in a condition, an index out
    of bounds, a call missing a required argument, a shape mismatch) are
    modelled with Except String.
-/

namespace VRP

/-- Mask update of Decoder.apply_mask_to_logits (PtrNet.py lines 152-167).
Starting from the mask carried over from the previous call (a zero tensor on
the first call), the code first sets, for every batch row i, the entry at the
previous selection to 1, and then clears the depot column (index 0) exactly
on the rows whose previous selection was not the depot. -/
def apply_mask_to_logits {B N : ℕ} [NeZero N]
    (mask : Fin B → Fin N → Bool) (prev_idxs : Fin B → Fin N) :
    Fin B → Fin N → Bool :=
  fun i j =>
    if prev_idxs i ≠ 0 ∧ j = 0 then false
    else if j = prev_idxs i then true
    else mask i j

/-- Initial mask: the None case of apply_mask_to_logits builds a zero tensor. -/
def initial_mask (B N : ℕ) : Fin B → Fin N → Bool := fun _ _ => false

/-- Logits mutation of apply_mask_to_logits (PtrNet.py line 166,
logits[maskk] = -np.inf).  The mask tensor is created with .long() (line
154), so maskk is a LongTensor and the subscript is integer advanced
indexing along dimension 0, not boolean masking: for every entry value v of
maskk, the whole row v of logits is set to -inf.  The values of maskk are 0
and 1, so row 0 is clobbered when maskk has any 0 entry and row 1 when it
has any 1 entry; if a 1 entry is present while the batch has fewer than two
rows, the indexing raises IndexError.  A -inf logit is carried as none. -/
def logits_set_neg_inf_long {B N : ℕ} (logits : Fin B → Fin N → ℝ)
    (maskk : Fin B → Fin N → Bool) : Except String (Fin B → Fin N → Option ℝ) :=
  if (∃ i j, maskk i j = true) ∧ B < 2 then
    .error "index 1 is out of bounds for dimension 0 with size 1"
  else
    .ok (fun i j =>
      if (i.val = 0 ∧ ∃ a b, maskk a b = false) ∨
          (i.val = 1 ∧ ∃ a b, maskk a b = true) then none
      else some (logits i j))

/-- Softmax of a logits row that may hold -inf entries (PtrNet.py line 196,
probs = self.sm(logits)): a -inf entry gets exactly zero mass, a finite
entry gets its exponential normalised by the total finite mass, and a row
whose entries are all -inf evaluates to 0/0 = NaN in every position,
carried as none. -/
noncomputable def softmax_with_neg_inf {N : ℕ} (row : Fin N → Option ℝ) :
    Fin N → Option ℝ :=
  if ∃ j, (row j).isSome = true then
    fun j =>
      match row j with
      | some x => some (Real.exp x /
          ∑ k ∈ Finset.univ.filter (fun k => (row k).isSome = true),
            Real.exp ((row k).getD 0))
      | none => some 0
  else fun _ => none

/-- Probability rows produced by one decoding step (PtrNet.py lines
193-196): the mask update of apply_mask_to_logits, the LongTensor indexing
assignment of line 166, then softmax row by row.  An entry none stands for
NaN. -/
noncomputable def decoder_prob_rows {B N : ℕ} [NeZero N]
    (mask : Fin B → Fin N → Bool) (prev_idxs : Fin B → Fin N)
    (logits : Fin B → Fin N → ℝ) : Except String (Fin B → Fin N → Option ℝ) :=
  Except.map (fun masked i => softmax_with_neg_inf (masked i))
    (logits_set_neg_inf_long logits (apply_mask_to_logits mask prev_idxs))

/-- Probability rows of the concrete C2 failing step: batch rows 0 and 1
are NaN in every position and batch row 2 is uniform. -/
noncomputable def c2_probs : Fin 3 → Fin 2 → Option ℝ :=
  fun i _ => if i.val ≤ 1 then none else some (1 / 2)

/-- C2 (code bug): on the first decoding step after the forced depot step
(previous selection = depot for all three instances, zero initial mask, all
logits zero), the mask marks node 0 for every instance and leaves node 1
legal.  Because maskk is a LongTensor, line 166 sets whole rows 0 and 1 of
the logits to -inf instead of the masked entries: rows 0 and 1 softmax to
NaN, and batch row 2 keeps probability 1/2 on its masked node 0 instead of
the exactly-zero mass the claim requires. -/
theorem C2_masked_prob_positive_code_bug :
    decoder_prob_rows (B := 3) (N := 2) (initial_mask 3 2) (fun _ => 0)
        (fun _ _ => 0) = Except.ok c2_probs ∧
    apply_mask_to_logits (initial_mask 3 2) (fun _ => 0) 2 0 = true ∧
    apply_mask_to_logits (initial_mask 3 2) (fun _ => 0) 2 1 = false ∧
    c2_probs 2 0 = some (1 / 2) ∧ (1 / 2 : ℝ) ≠ 0 ∧
    c2_probs 0 0 = none := by
  have hex_false : ∃ (a : Fin 3) (b : Fin 2),
      apply_mask_to_logits (initial_mask 3 2) (fun _ => 0) a b = false := by
    decide
  have hex_true : ∃ (a : Fin 3) (b : Fin 2),
      apply_mask_to_logits (initial_mask 3 2) (fun _ => 0) a b = true := by
    decide
  have hmask : logits_set_neg_inf_long (B := 3) (N := 2) (fun _ _ => (0 : ℝ))
      (apply_mask_to_logits (initial_mask 3 2) (fun _ => 0)) =
      Except.ok (fun i _ => if i.val ≤ 1 then none else some (0 : ℝ)) := by
    rw [logits_set_neg_inf_long, if_neg (fun h => absurd h.2 (by norm_num))]
    congr 1
    funext i j
    fin_cases i <;> simp [hex_false, hex_true]
  refine ⟨?_, by decide, by decide, rfl, by norm_num, rfl⟩
  rw [decoder_prob_rows, hmask]
  simp only [Except.map]
  congr 1
  funext i j
  fin_cases i
  · rw [softmax_with_neg_inf, if_neg (by simp)]
    rfl
  · rw [softmax_with_neg_inf, if_neg (by simp)]
    rfl
  · rw [softmax_with_neg_inf, if_pos ⟨0, rfl⟩]
    show some (Real.exp 0 / _) = c2_probs 2 j
    rw [c2_probs]
    simp [Finset.filter_true_of_mem, Fin.sum_univ_two, Real.exp_zero]

/-- C3 counterexample: the claim states the mask is empty when the previous
selection was the depot (the depot is never masked).  In the code, the first
mask update (previous selection = depot for every instance, zero initial
mask) sets the depot entry of the mask to 1: the depot IS masked right after
a depot visit. -/
theorem C3_mask_claim_counterexample :
    (fun _ : Fin 1 => (0 : Fin 2)) 0 = 0 ∧
      apply_mask_to_logits (initial_mask 1 2) (fun _ => 0) 0 0 = true := by
  constructor
  · rfl
  · decide

/-- C3 amended: one application of the mask update marks node j for instance
i exactly when the depot-clearing rule does not apply (that is, unless j is
the depot and the previous selection was not the depot) and j is either the
previous selection or was already marked in the carried-over mask.  In
particular the depot is masked exactly when the previous selection was the
depot, and non-depot marks accumulate across steps instead of being reset to
a singleton. -/
theorem C3_mask_update_characterization {B N : ℕ} [NeZero N]
    (mask : Fin B → Fin N → Bool) (prev_idxs : Fin B → Fin N)
    (i : Fin B) (j : Fin N) :
    apply_mask_to_logits mask prev_idxs i j = true ↔
      (¬(prev_idxs i ≠ 0 ∧ j = 0)) ∧ (j = prev_idxs i ∨ mask i j = true) := by
  unfold apply_mask_to_logits
  split_ifs with h1 h2
  · simp [h1]
  · simp [h1, h2]
  · constructor
    · intro hmask
      exact ⟨h1, Or.inr hmask⟩
    · rintro ⟨-, h | hmask⟩
      · exact absurd h h2
      · exact hmask

/-- C3 amended witness: at a concrete input (two nodes, previous selection
node 1, node 1 already masked from before), the characterization evaluates:
node 1 stays masked, the depot is cleared. -/
theorem C3_mask_update_characterization_witness :
    (apply_mask_to_logits (B := 1) (N := 2)
        (fun _ j => j = 1) (fun _ => 1) 0 1 = true ↔
      (¬((fun _ : Fin 1 => (1 : Fin 2)) 0 ≠ 0 ∧ (1 : Fin 2) = 0)) ∧
        ((1 : Fin 2) = (fun _ : Fin 1 => (1 : Fin 2)) 0 ∨
          (fun _ : Fin 1 => fun j : Fin 2 => decide (j = 1)) 0 1 = true)) :=
  C3_mask_update_characterization (fun _ j => j = 1) (fun _ => 1) 0 1

/-- Euclidean distance between the coordinates (features 0 and 1) of the
previously selected node and of the newly selected node of batch row i
(PtrNet.py lines 280-282, torch.norm of the coordinate difference). -/
noncomputable def step_distance {B N : ℕ}
    (before : Fin N → Fin B → Fin 6 → ℝ) (prev_idxs idxs : Fin B → Fin N)
    (i : Fin B) : ℝ :=
  Real.sqrt ((before (prev_idxs i) i 0 - before (idxs i) i 0) ^ 2 +
    (before (prev_idxs i) i 1 - before (idxs i) i 1) ^ 2)

/-- Body of the per-instance loop of decode_stochastic (PtrNet.py lines
289-297) for loop index i.  When the sampled index of row i is not the depot,
the elapsed time of row i becomes max(elapsed + distance, window start), and
then the code subtracts the selected node's demand from rc_ct[0], the fixed
batch slot 0 (a scalar broadcast over both the capacity and the time
component of that slot). -/
def rc_ct_loop_step {B N : ℕ} [NeZero B] [NeZero N]
    (idxs : Fin B → Fin N) (d t1 req : Fin B → ℝ)
    (rc : Fin B → ℝ × ℝ) (i : Fin B) : Fin B → ℝ × ℝ :=
  if idxs i ≠ 0 then
    let rc1 := Function.update rc i ((rc i).1, max ((rc i).2 + d i) (t1 i))
    Function.update rc1 0 ((rc1 0).1 - req i, (rc1 0).2 - req i)
  else rc

/-- Sequential loop over the batch rows (PtrNet.py line 289, for i in
range(batch_size)). -/
def rc_ct_loop {B N : ℕ} [NeZero B] [NeZero N]
    (idxs : Fin B → Fin N) (d t1 req : Fin B → ℝ)
    (rc : Fin B → ℝ × ℝ) : Fin B → ℝ × ℝ :=
  (List.finRange B).foldl (rc_ct_loop_step idxs d t1 req) rc

/-- Vehicle-state update of decode_stochastic (PtrNet.py lines 289-299):
after the loop, every row whose sampled index is the depot is reset to
(vehicle_init_capacity, 0) (line 299, rc_ct[zero_idxs, :] assignment). -/
def update_rc_ct {B N : ℕ} [NeZero B] [NeZero N] (init_capacity : ℝ)
    (idxs : Fin B → Fin N) (d t1 req : Fin B → ℝ)
    (rc : Fin B → ℝ × ℝ) : Fin B → ℝ × ℝ :=
  fun i =>
    if idxs i = 0 then (init_capacity, 0)
    else rc_ct_loop idxs d t1 req rc i

/-- Vehicle-state part of decode_stochastic (PtrNet.py lines 275-299), with
the distance, window-start and demand vectors read off the raw feature
tensor exactly as lines 280-286 do: distance from the coordinates of the
previous and the new selection, t_1 from feature 3 and required_capacity
from feature 2 of the newly selected node. -/
noncomputable def decode_stochastic_rc_ct {B N : ℕ} [NeZero B] [NeZero N]
    (init_capacity : ℝ) (before : Fin N → Fin B → Fin 6 → ℝ)
    (idxs prev_idxs : Fin B → Fin N) (rc : Fin B → ℝ × ℝ) :
    Fin B → ℝ × ℝ :=
  update_rc_ct init_capacity idxs
    (step_distance before prev_idxs idxs)
    (fun i => before (idxs i) i 3)
    (fun i => before (idxs i) i 2)
    rc

/-- C5: every instance whose sampled node is the depot ends the step with
vehicle state exactly (initial capacity, 0), regardless of its vehicle state
before the step. -/
theorem C5_depot_reset {B N : ℕ} [NeZero B] [NeZero N]
    (init_capacity : ℝ) (before : Fin N → Fin B → Fin 6 → ℝ)
    (idxs prev_idxs : Fin B → Fin N) (rc : Fin B → ℝ × ℝ)
    (i : Fin B) (h : idxs i = 0) :
    decode_stochastic_rc_ct init_capacity before idxs prev_idxs rc i =
      (init_capacity, 0) := by
  simp [decode_stochastic_rc_ct, update_rc_ct, h]

/-- C5 witness: a concrete batch of one instance that samples the depot while
holding vehicle state (5, 7) ends the step with state (10, 0). -/
theorem C5_depot_reset_witness :
    ((fun _ : Fin 1 => (0 : Fin 2)) 0 = 0) ∧
      decode_stochastic_rc_ct (B := 1) (N := 2) 10 (fun _ _ _ => 0)
        (fun _ => 0) (fun _ => 0) (fun _ => (5, 7)) 0 = (10, 0) :=
  ⟨rfl, C5_depot_reset 10 (fun _ _ _ => 0) (fun _ => 0) (fun _ => 0)
    (fun _ => (5, 7)) 0 rfl⟩

/-- Feature tensor of a concrete batch of two instances over three nodes:
all coordinates 0, node 1 has demand 2, node 2 has demand 3, all time
windows start at 0. -/
def c1_before : Fin 3 → Fin 2 → Fin 6 → ℝ := fun n _ f =>
  if n = 1 ∧ f = 2 then 2 else if n = 2 ∧ f = 2 then 3 else 0

/-- C1 (code bug): in the concrete batch c1_before where instance 0 samples
node 1 (demand 2) and instance 1 samples node 2 (demand 3), the code leaves
instance 1's remaining capacity at 10 (the claim requires 10 - 3 = 7) and
instead decrements batch slot 0 by both demands — both components of slot 0,
capacity and elapsed time, ending at (10 - 2 - 3, 0 - 2 - 3) = (5, -5) —
because line 297 of PtrNet.py subtracts into rc_ct[0] instead of rc_ct[i]. -/
theorem C1_capacity_fixed_slot_code_bug :
    decode_stochastic_rc_ct (B := 2) (N := 3) 10 c1_before
        ![1, 2] ![0, 0] (fun _ => (10, 0)) 1 = (10, 0) ∧
    decode_stochastic_rc_ct (B := 2) (N := 3) 10 c1_before
        ![1, 2] ![0, 0] (fun _ => (10, 0)) 0 = (5, -5) ∧
    (10 : ℝ) ≠ 10 - 3 := by
  have hd : ∀ i : Fin 2, step_distance c1_before ![0, 0] ![1, 2] i = 0 := by
    intro i
    fin_cases i <;>
      simp [step_distance, c1_before, Real.sqrt_zero]
  have hfr : (List.finRange 2 : List (Fin 2)) = [0, 1] := by decide
  have hloop :
      rc_ct_loop (B := 2) (N := 3) ![1, 2]
          (step_distance c1_before ![0, 0] ![1, 2])
          (fun i => c1_before (![1, 2] i) i 3)
          (fun i => c1_before (![1, 2] i) i 2)
          (fun _ => (10, 0)) =
        Function.update
          (Function.update (fun _ : Fin 2 => ((10 : ℝ), (0 : ℝ))) 0 (8, -2))
          0 (5, -5) := by
    rw [rc_ct_loop, hfr]
    simp only [List.foldl_cons, List.foldl_nil]
    funext b
    fin_cases b
    · simp +decide [rc_ct_loop_step, Function.update, c1_before, hd]
      norm_num
    · simp +decide [rc_ct_loop_step, Function.update, c1_before, hd]
  refine ⟨?_, ?_, by norm_num⟩
  · show update_rc_ct 10 ![1, 2] _ _ _ _ 1 = (10, 0)
    rw [update_rc_ct, if_neg (by decide : ¬(![1, 2] : Fin 2 → Fin 3) 1 = 0), hloop]
    simp [Function.update]
  · show update_rc_ct 10 ![1, 2] _ _ _ _ 0 = (5, -5)
    rw [update_rc_ct, if_neg (by decide : ¬(![1, 2] : Fin 2 → Fin 3) 0 = 0), hloop]
    simp [Function.update]

/-- Feature tensor of a concrete batch of one instance over two nodes: all
coordinates 0, node 1 has demand 2 and time-window start 3. -/
def c6_before : Fin 2 → Fin 1 → Fin 6 → ℝ := fun n _ f =>
  if n = 1 ∧ f = 2 then 2 else if n = 1 ∧ f = 3 then 3 else 0

/-- C6 (code bug): in the concrete batch c6_before, instance 0 samples node
1 (distance 0 from the depot, window start 3, demand 2) starting from
vehicle state (10, 0).  The claim requires the new elapsed time
max(0 + 0, 3) = 3, but the code ends the step at elapsed time 1, because
after setting the time it also subtracts the demand from both components of
rc_ct[0] (line 297 of PtrNet.py): (10 - 2, 3 - 2) = (8, 1). -/
theorem C6_elapsed_time_code_bug :
    decode_stochastic_rc_ct (B := 1) (N := 2) 10 c6_before
        (fun _ => 1) (fun _ => 0) (fun _ => (10, 0)) 0 = (8, 1) ∧
    ((8 : ℝ), (1 : ℝ)).2 ≠ max ((0 : ℝ) + 0) 3 := by
  have hd : step_distance c6_before (fun _ => 0) (fun _ => 1) 0 = 0 := by
    simp [step_distance, c6_before, Real.sqrt_zero]
  have hfr : (List.finRange 1 : List (Fin 1)) = [0] := by decide
  constructor
  · show update_rc_ct 10 (fun _ => 1) _ _ _ _ 0 = (8, 1)
    rw [update_rc_ct, if_neg (by decide : ¬(1 : Fin 2) = 0), rc_ct_loop, hfr]
    simp only [List.foldl_cons, List.foldl_nil]
    simp +decide [rc_ct_loop_step, Function.update, c6_before, hd]
    norm_num
  · norm_num

/-- Batch rows whose sampled index is the depot, in ascending order
(PtrNet.py line 270, np.where(idxs == 0)[0]). -/
def zero_idxs {B N : ℕ} [NeZero N] (idxs : Fin B → Fin N) : List (Fin B) :=
  (List.finRange B).filter (fun b => decide (idxs b = 0))

/-- Truth value Python assigns to a torch integer tensor built from a list:
a one-element tensor is truthy exactly when its single value is nonzero,
while an empty tensor and a tensor with several elements raise a RuntimeError
when used as a condition.  This models the guard at PtrNet.py line 271
(if zero_idxs:), whose operand holds batch indices. -/
def tensor_truthiness : List ℕ → Except String Bool
  | [] => .error "Boolean value of Tensor with no values is ambiguous"
  | [x] => .ok (decide (x ≠ 0))
  | _ :: _ :: _ =>
      .error "Boolean value of Tensor with more than one element is ambiguous"

/-- Splice of the embedding tensor performed by decode_stochastic
(PtrNet.py line 273): only row 0 of the node dimension — the depot node's
embedding — is overwritten, and only for the listed batch columns. -/
def splice_embedded_row0 {B N : ℕ} [NeZero N] {E : Type}
    (emb : Fin N → Fin B → E) (targets : List (Fin B)) (newVal : Fin B → E) :
    Fin N → Fin B → E :=
  fun n b => if n = 0 ∧ b ∈ targets then newVal b else emb n b

set_option linter.unusedVariables false in
/-- Re-embedding step of decode_stochastic (PtrNet.py lines 270-273): gate
on the Python truthiness of the zero_idxs tensor.  When the gate is falsy
the branch is skipped and the embeddings are unchanged; when the truthiness
test raises, the step raises.  When the gate is truthy, line 272 takes the
2-D slice before_embedded_inputs[0, zero_idxs, :] of shape [K, 6] and line
273 feeds it to self.s2v, but Struct2Vec.forward indexes its input as a 3-D
[node_num x batch x input_dim] tensor (inputs[i][:, :2]), so the call
raises IndexError on that slice before anything is spliced.  The s2v
parameter records what the call site would apply. -/
def re_embed_step {B N : ℕ} [NeZero N] {α E : Type}
    (s2v : (Fin 6 → α) → E) (before : Fin N → Fin B → Fin 6 → α)
    (emb : Fin N → Fin B → E) (idxs : Fin B → Fin N) :
    Except String (Fin N → Fin B → E) :=
  match tensor_truthiness ((zero_idxs idxs).map Fin.val) with
  | .error e => .error e
  | .ok true => .error "too many indices for tensor of dimension 1"
  | .ok false => .ok emb

/-- C4 (code bug): in a batch of one instance whose sampled node is the
depot, zero_idxs is the one-element tensor [0], which Python treats as
falsy, so the code skips re-embedding entirely and every embedding is left
unchanged — even though applying the embedder would have changed the depot
row (the chosen s2v maps the all-zero feature row to 1, not 0).  The claim
requires instance 0's embeddings to be recomputed. -/
theorem C4_reembed_skipped_for_batch_zero :
    ((fun _ : Fin 1 => (0 : Fin 2)) 0 = 0) ∧
    re_embed_step (B := 1) (N := 2) (α := ℚ) (E := ℚ)
        (fun f => f 0 + 1) (fun _ _ _ => 0) (fun _ _ => 0) (fun _ => 0) =
      Except.ok (fun _ _ => 0) ∧
    (fun f : Fin 6 → ℚ => f 0 + 1) ((fun _ _ _ => (0 : ℚ)) 0 0) ≠
      (fun _ _ => (0 : ℚ)) 0 0 := by
  refine ⟨rfl, rfl, by norm_num⟩

/-- In-place update of the context tensor performed by Decoder.forward
(PtrNet.py line 227, context[:, zero_idxs, :] = context_change): only the
listed batch columns are overwritten. -/
def splice_context {L B : ℕ} {H : Type}
    (context : Fin L → Fin B → H) (targets : List (Fin B))
    (newCtx : Fin L → Fin B → H) : Fin L → Fin B → H :=
  fun l b => if b ∈ targets then newCtx l b else context l b

/-- In-place update of a hidden-state (or cell-state) tensor performed by
Decoder.forward (PtrNet.py lines 228-229, hx[zero_idxs, :] = ...): only the
listed batch rows are overwritten. -/
def splice_hidden {B : ℕ} {H : Type}
    (h : Fin B → H) (targets : List (Fin B)) (newH : Fin B → H) :
    Fin B → H :=
  fun b => if b ∈ targets then newH b else h b

/-- Membership in zero_idxs is exactly sampling the depot. -/
theorem mem_zero_idxs_iff {B N : ℕ} [NeZero N]
    (idxs : Fin B → Fin N) (b : Fin B) :
    b ∈ zero_idxs idxs ↔ idxs b = 0 := by
  simp [zero_idxs, List.mem_filter, List.mem_finRange]

/-- C8: when the instances re-embedded and re-encoded after a depot return
are those of zero_idxs, every batch row b that did not sample the depot
keeps its context column, its hidden and cell state rows, and all of its
node embeddings exactly as they were before the splices. -/
theorem C8_reencode_frame {L B N : ℕ} [NeZero N] {H E : Type}
    (context newCtx : Fin L → Fin B → H) (hx cx newHx newCx : Fin B → H)
    (emb : Fin N → Fin B → E) (newRow : Fin B → E)
    (idxs : Fin B → Fin N) (b : Fin B) (hb : idxs b ≠ 0) :
    (∀ l, splice_context context (zero_idxs idxs) newCtx l b = context l b) ∧
    splice_hidden hx (zero_idxs idxs) newHx b = hx b ∧
    splice_hidden cx (zero_idxs idxs) newCx b = cx b ∧
    (∀ n, splice_embedded_row0 emb (zero_idxs idxs) newRow n b = emb n b) := by
  have hmem : b ∉ zero_idxs idxs := by
    rw [mem_zero_idxs_iff]
    exact hb
  refine ⟨fun l => ?_, ?_, ?_, fun n => ?_⟩ <;>
    simp [splice_context, splice_hidden, splice_embedded_row0, hmem]

/-- C8 witness: in a concrete batch of two instances where instance 1
samples the depot and instance 0 does not, instance 0's context, hidden
state, cell state and embeddings are untouched by the splices. -/
theorem C8_reencode_frame_witness :
    ((![1, 0] : Fin 2 → Fin 2) 0 ≠ 0) ∧
    ((∀ l : Fin 1, splice_context (L := 1) (B := 2) (fun _ _ => (3 : ℚ))
        (zero_idxs (N := 2) ![1, 0]) (fun _ _ => 4) l 0 =
        (fun _ _ => (3 : ℚ)) l 0) ∧
      splice_hidden (B := 2) (fun _ => (5 : ℚ)) (zero_idxs (N := 2) ![1, 0])
        (fun _ => 6) 0 = (fun _ => (5 : ℚ)) 0 ∧
      splice_hidden (B := 2) (fun _ => (7 : ℚ)) (zero_idxs (N := 2) ![1, 0])
        (fun _ => 8) 0 = (fun _ => (7 : ℚ)) 0 ∧
      (∀ n : Fin 2, splice_embedded_row0 (B := 2) (N := 2)
          (fun _ _ => (9 : ℚ)) (zero_idxs (N := 2) ![1, 0]) (fun _ => 11) n 0 =
          (fun _ _ => (9 : ℚ)) n 0)) :=
  ⟨by decide,
    C8_reencode_frame (fun _ _ => 3) (fun _ _ => 4) (fun _ => 5) (fun _ => 7)
      (fun _ => 6) (fun _ => 8) (fun _ _ => 9) (fun _ => 11) ![1, 0] 0
      (by decide)⟩

/-- Forced first probability row appended before the loop (PtrNet.py lines
207-210): a zero tensor with column 0 filled with 1, one-hot on the depot. -/
noncomputable def forced_first_prob (B N : ℕ) [NeZero N] :
    Fin B → Fin N → ℝ :=
  fun _ j => if j = 0 then 1 else 0

/-- Forced first selection appended before the loop (PtrNet.py lines
205-206): index 0 for every instance. -/
def forced_first_sel (B N : ℕ) [NeZero N] : Fin B → Fin N := fun _ => 0

/-- Encoder.forward has signature (self, x, hidden) with no default value
for hidden (PtrNet.py line 19).  A Python call that supplies both arguments
runs the recurrent transform; a call that supplies only x — as the
re-encoding call at line 224, self.encoder(embedded_inputs[:, zero_idxs,
:]), does — raises TypeError before the encoder body runs. -/
def encoder_forward_call {X H Y : Type} (fwd : X → H → Y) (x : X)
    (hidden : Option H) : Except String Y :=
  match hidden with
  | some h => .ok (fwd x h)
  | none => .error "forward() missing 1 required positional argument: hidden"

/-- Failure-relevant effects of one iteration of the stochastic decoding
loop (PtrNet.py lines 217-230): decode_stochastic runs the zero_idxs
re-embedding gate (line 271, re_embed_step, which can raise in the
truthiness test or inside Struct2Vec), and then line 224 re-encodes by
calling self.encoder with only one argument, so an iteration that survives
decode_stochastic still raises TypeError at the re-encoding call. -/
def stochastic_iteration_effects {B N : ℕ} [NeZero N] {α E Y : Type}
    (s2v : (Fin 6 → α) → E) (before : Fin N → Fin B → Fin 6 → α)
    (emb : Fin N → Fin B → E) (idxs : Fin B → Fin N)
    (fwd : (Fin N → Fin B → E) → Y → Y) :
    Except String (Fin N → Fin B → E) := do
  let emb2 ← re_embed_step s2v before emb idxs
  let _ ← encoder_forward_call fwd emb2 none
  pure emb2

/-- Decoding loop of Decoder.forward in stochastic mode (PtrNet.py lines
217-234): each iteration advances the state (recurrence, decode_stochastic
and the re-encoding splices, bundled in stepF) and appends one probability
row tensor and one selection tensor; an exception raised by the body
propagates out of the loop and nothing is returned. -/
def decode_loop {S P A : Type} (stepF : S → Except String (S × P × A)) :
    ℕ → S → Except String (List P × List A)
  | 0, _ => .ok ([], [])
  | k + 1, s =>
      match stepF s with
      | .error e => .error e
      | .ok (s2, p, a) =>
          match decode_loop stepF k s2 with
          | .error e => .error e
          | .ok r => .ok (p :: r.1, a :: r.2)

/-- Stochastic branch of Decoder.forward (PtrNet.py lines 199-236): the
outputs and selections lists start with the forced depot entries and the
loop body runs (seq_len - 1) * 2 times; an exception raised by any
iteration propagates out of forward. -/
noncomputable def decoder_forward_stochastic {S : Type} (B N seq_len : ℕ)
    [NeZero N]
    (stepF : S → Except String (S × (Fin B → Fin N → ℝ) × (Fin B → Fin N)))
    (s0 : S) :
    Except String (List (Fin B → Fin N → ℝ) × List (Fin B → Fin N)) :=
  match decode_loop stepF ((seq_len - 1) * 2) s0 with
  | .error e => .error e
  | .ok r => .ok (forced_first_prob B N :: r.1, forced_first_sel B N :: r.2)

/-- Loop body for the concrete C7 failing run: one instance over two nodes
whose sampled node is the depot (the one sample for which the line 271
truthiness gate passes without raising), with stub weights for the
embedder and the encoder. -/
noncomputable def c7_step (emb : Fin 2 → Fin 1 → ℚ) :
    Except String ((Fin 2 → Fin 1 → ℚ) × (Fin 1 → Fin 2 → ℝ) × (Fin 1 → Fin 2)) := do
  let emb2 ← stochastic_iteration_effects (α := ℚ) (Y := ℚ)
    (fun f => f 0 + 1) (fun _ _ _ => 0) emb (fun _ => 0) (fun _ y => y)
  pure (emb2, forced_first_prob 1 2, forced_first_sel 1 2)

/-- C7 (code bug): the decoder never returns the claimed trajectories.  In
the concrete run of c7_step (batch of one instance over N = 2 nodes, every
sample the depot — the only sample for which decode_stochastic survives its
truthiness gate), the re-encoding call of line 224 raises TypeError on the
very first of the 2 * (N - 1) iterations, so Decoder.forward propagates the
exception and returns no selections or probability trajectory of any
length, instead of trajectories of length 2 * (N - 1) + 1. -/
theorem C7_forward_never_returns_code_bug :
    decoder_forward_stochastic 1 2 2 c7_step (fun _ _ => 0) =
      Except.error "forward() missing 1 required positional argument: hidden" ∧
    ∀ r, decoder_forward_stochastic 1 2 2 c7_step (fun _ _ => 0) ≠
      Except.ok r := by
  have h1 : decoder_forward_stochastic 1 2 2 c7_step (fun _ _ => 0) =
      Except.error "forward() missing 1 required positional argument: hidden" :=
    rfl
  refine ⟨h1, fun r hr => ?_⟩
  rw [h1] at hr
  exact Except.noConfusion hr

/-- Dispatch on decode_type in Decoder.forward (PtrNet.py lines 215-243):
the stochastic branch returns its trajectories; the greedy branch is
literally pass, so the function falls through and returns Python's implicit
None, as it also does for any unrecognized decode type. -/
def decoder_forward_dispatch {T : Type} (decode_type : String)
    (stochastic_result : T) : Option T :=
  if decode_type = "stochastic" then some stochastic_result
  else if decode_type = "greedy" then none
  else none

/-- C9 (code bug): invoking the decoder with decode_type 'greedy' does not
fail fast with a descriptive error; the greedy branch is a bare pass, so the
call silently returns None for every input. -/
theorem C9_greedy_silent_none {T : Type} (stochastic_result : T) :
    decoder_forward_dispatch "greedy" stochastic_result = none := by
  rfl

/-- Random draws consumed for one service node of the dataset generator
(Data_Generator.py lines 24-26): two uniform coordinates, one randint
demand, one uniform time-window start. -/
structure ServiceDraw where
  x : ℝ
  y : ℝ
  capacity : ℤ
  t1 : ℝ

/-- Depot feature row built by VRPDataset (Data_Generator.py line 22):
coordinates followed by four zeros. -/
def depot_node_features (x y : ℝ) : Fin 6 → ℝ := ![x, y, 0, 0, 0, 0]

/-- Service-node feature row built by VRPDataset (Data_Generator.py lines
24-29): coordinates, demand, window start t1, window end t1 + 2, visited
flag 0. -/
def service_node_features (d : ServiceDraw) : Fin 6 → ℝ :=
  ![d.x, d.y, (d.capacity : ℝ), d.t1, d.t1 + 2, 0]

/-- One sample of VRPDataset (Data_Generator.py lines 20-31): the depot row
followed by node_num - 1 service rows. -/
def vrp_sample (node_num : ℕ) (dep : ℝ × ℝ) (draws : ℕ → ServiceDraw) :
    List (Fin 6 → ℝ) :=
  depot_node_features dep.1 dep.2 ::
    (List.range (node_num - 1)).map (fun i => service_node_features (draws i))

/-- Dataset of VRPDataset.__init__ (Data_Generator.py lines 14-33), with the
random draws supplied as oracles indexed by sample number and node number. -/
def vrp_dataset (num_samples node_num : ℕ) (dep : ℕ → ℝ × ℝ)
    (draws : ℕ → ℕ → ServiceDraw) : List (List (Fin 6 → ℝ)) :=
  (List.range num_samples).map (fun s => vrp_sample node_num (dep s) (draws s))

/-- C10: under the ranges of the generator's random draws (uniform(0,1)
coordinates, randint(1,10) demands, uniform(0,5) window starts), every
instance of the dataset starts with a depot row (x, y, 0, 0, 0, 0) with x
and y in [0,1], and every later row has an integer demand in [1,10] at
feature 2, a window start in [0,5] at feature 3, a window end equal to the
start plus 2 at feature 4, and visited flag 0 at feature 5. -/
theorem C10_dataset_row_invariants (num_samples node_num : ℕ)
    (dep : ℕ → ℝ × ℝ) (draws : ℕ → ℕ → ServiceDraw)
    (hdep : ∀ s, (dep s).1 ∈ Set.Icc (0 : ℝ) 1 ∧ (dep s).2 ∈ Set.Icc (0 : ℝ) 1)
    (hcap : ∀ s i, 1 ≤ (draws s i).capacity ∧ (draws s i).capacity ≤ 10)
    (ht1 : ∀ s i, (draws s i).t1 ∈ Set.Icc (0 : ℝ) 5) :
    ∀ inst ∈ vrp_dataset num_samples node_num dep draws,
      (∃ x y, inst.head? = some (depot_node_features x y) ∧
        x ∈ Set.Icc (0 : ℝ) 1 ∧ y ∈ Set.Icc (0 : ℝ) 1 ∧
        depot_node_features x y 2 = 0 ∧ depot_node_features x y 3 = 0 ∧
        depot_node_features x y 4 = 0 ∧ depot_node_features x y 5 = 0) ∧
      ∀ node ∈ inst.tail,
        (∃ c : ℤ, node 2 = (c : ℝ) ∧ 1 ≤ c ∧ c ≤ 10) ∧
        node 3 ∈ Set.Icc (0 : ℝ) 5 ∧ node 4 = node 3 + 2 ∧ node 5 = 0 := by
  intro inst hinst
  rw [vrp_dataset, List.mem_map] at hinst
  obtain ⟨s, -, rfl⟩ := hinst
  constructor
  · exact ⟨(dep s).1, (dep s).2, rfl, (hdep s).1, (hdep s).2, rfl, rfl, rfl, rfl⟩
  · intro node hnode
    rw [vrp_sample] at hnode
    simp only [List.tail_cons, List.mem_map] at hnode
    obtain ⟨i, -, rfl⟩ := hnode
    refine ⟨⟨(draws s i).capacity, rfl, (hcap s i).1, (hcap s i).2⟩,
      ?_, rfl, rfl⟩
    simpa [service_node_features] using ht1 s i

/-- C10 witness: a one-sample, two-node dataset with coordinates 1/2, demand
1 and window start 0 satisfies all the row invariants. -/
theorem C10_dataset_row_invariants_witness :
    ((∀ s : ℕ, ((fun _ => ((1 / 2 : ℝ), (1 / 2 : ℝ))) s).1 ∈ Set.Icc (0 : ℝ) 1 ∧
        ((fun _ => ((1 / 2 : ℝ), (1 / 2 : ℝ))) s).2 ∈ Set.Icc (0 : ℝ) 1) ∧
      (∀ s i : ℕ, 1 ≤ ((fun _ _ => ServiceDraw.mk (1 / 2) (1 / 2) 1 0) s i).capacity ∧
        ((fun _ _ => ServiceDraw.mk (1 / 2) (1 / 2) 1 0) s i).capacity ≤ 10) ∧
      (∀ s i : ℕ, ((fun _ _ => ServiceDraw.mk (1 / 2) (1 / 2) 1 0) s i).t1 ∈
        Set.Icc (0 : ℝ) 5)) ∧
    (∀ inst ∈ vrp_dataset 1 2 (fun _ => (1 / 2, 1 / 2))
        (fun _ _ => ServiceDraw.mk (1 / 2) (1 / 2) 1 0),
      (∃ x y, inst.head? = some (depot_node_features x y) ∧
        x ∈ Set.Icc (0 : ℝ) 1 ∧ y ∈ Set.Icc (0 : ℝ) 1 ∧
        depot_node_features x y 2 = 0 ∧ depot_node_features x y 3 = 0 ∧
        depot_node_features x y 4 = 0 ∧ depot_node_features x y 5 = 0) ∧
      ∀ node ∈ inst.tail,
        (∃ c : ℤ, node 2 = (c : ℝ) ∧ 1 ≤ c ∧ c ≤ 10) ∧
        node 3 ∈ Set.Icc (0 : ℝ) 5 ∧ node 4 = node 3 + 2 ∧ node 5 = 0) :=
  ⟨⟨fun s => ⟨by norm_num, by norm_num⟩,
      fun s i => ⟨by norm_num, by norm_num⟩,
      fun s i => by norm_num⟩,
    C10_dataset_row_invariants 1 2 (fun _ => (1 / 2, 1 / 2))
      (fun _ _ => ServiceDraw.mk (1 / 2) (1 / 2) 1 0)
      (fun s => ⟨by norm_num, by norm_num⟩)
      (fun s i => ⟨by norm_num, by norm_num⟩)
      (fun s i => by norm_num)⟩

end VRP
